import Mathlib

/-!
Shallow embedding of the MoveAI assistant (src/MoveAI.ts): intent
classification, template instantiation, symbol extraction, glossary lookup
and rule-based review, together with a small-step model of the Move-level
`transfer` function emitted by the token template.  Machine strings are
modelled as Lean `String`s; JS string operations are given executable
Bool-valued models below.
-/

set_option maxRecDepth 8000

/-- Bool-valued list prefix test, elementwise character equality
(model of the prefix step used by the JS substring search). -/
def isPrefixList : List Char → List Char → Bool
  | [], _ => true
  | _ :: _, [] => false
  | c :: cs, d :: ds => if c = d then isPrefixList cs ds else false

/-- Bool-valued substring occurrence test on character lists:
true iff `sub` occurs contiguously in the second list. -/
def inclList (sub : List Char) : List Char → Bool
  | [] => sub.isEmpty
  | c :: rest => isPrefixList sub (c :: rest) || inclList sub rest

/-- Model of JS `s.includes(sub)`: substring containment. -/
def sIncludes (s sub : String) : Bool := inclList sub.toList s.toList

/-- Number of positions of the second list at which `sub` occurs as a
contiguous substring (counts every occurrence position). -/
def countOccur (sub : List Char) : List Char → Nat
  | [] => if sub.isEmpty then 1 else 0
  | c :: rest => (if isPrefixList sub (c :: rest) then 1 else 0) + countOccur sub rest

/-- Occurrence count of `sub` in `s`, as strings. -/
def sCount (s sub : String) : Nat := countOccur sub.toList s.toList

/-- Model of JS `String.prototype.toLowerCase` on one character.  The
keyword tests of the classifier are all ASCII, so only the ASCII mapping
(A-Z to a-z) is modelled; other characters are left unchanged. -/
def jsToLowerChar (c : Char) : Char :=
  if 'A' ≤ c ∧ c ≤ 'Z' then Char.ofNat (c.toNat + 32) else c

/-- Model of JS `String.prototype.toLowerCase` (ASCII mapping). -/
def jsToLower (s : String) : String := String.mk (s.toList.map jsToLowerChar)

/-- The two generation parameters the generators read from the
`Record<string, string>` argument; a missing key is `none`
(TS `params.name` / `params.address` evaluating to `undefined`). -/
structure GenParams where
  name : Option String := none
  address : Option String := none
deriving DecidableEq

/-- Model of the JS defaulting idiom `params.name || d`: `undefined`
and the empty string are falsy and select the default. -/
def jsOrDefault (v : Option String) (d : String) : String :=
  match v with
  | none => d
  | some s => if s = "" then d else s

/-- Template string returned by `generateModule` (src/MoveAI.ts lines 89-112). -/
def moduleTemplate (address moduleName : String) : String :=
  "module " ++ address ++ "::" ++ moduleName ++ " \x7b\n" ++
  "    use std::signer;\n" ++
  "\n" ++
  "    const E_NOT_AUTHORIZED: u64 = 1;\n" ++
  "\n" ++
  "    struct Data has key \x7b\n" ++
  "        value: u64\n" ++
  "    \x7d\n" ++
  "\n" ++
  "    public fun initialize(account: &signer) \x7b\n" ++
  "        let account_addr = signer::address_of(account);\n" ++
  "        move_to(account, Data \x7b value: 0 \x7d);\n" ++
  "    \x7d\n" ++
  "\n" ++
  "    public fun update_value(account: &signer, new_value: u64) acquires Data \x7b\n" ++
  "        let account_addr = signer::address_of(account);\n" ++
  "        let data = borrow_global_mut<Data>(account_addr);\n" ++
  "        data.value = new_value;\n" ++
  "    \x7d\n" ++
  "\n" ++
  "    public fun get_value(account_addr: address): u64 acquires Data \x7b\n" ++
  "        borrow_global<Data>(account_addr).value\n" ++
  "    \x7d\n" ++
  "\x7d"

/-- Template string returned by `generateTokenContract`
(src/MoveAI.ts lines 119-183). -/
def tokenTemplate (address moduleName : String) : String :=
  "module " ++ address ++ "::" ++ moduleName ++ " \x7b\n" ++
  "    use std::signer;\n" ++
  "    use std::string::String;\n" ++
  "\n" ++
  "    const E_NOT_INITIALIZED: u64 = 1;\n" ++
  "    const E_ALREADY_INITIALIZED: u64 = 2;\n" ++
  "    const E_INSUFFICIENT_BALANCE: u64 = 3;\n" ++
  "\n" ++
  "    struct TokenInfo has key \x7b\n" ++
  "        name: String,\n" ++
  "        symbol: String,\n" ++
  "        decimals: u8,\n" ++
  "        total_supply: u64\n" ++
  "    \x7d\n" ++
  "\n" ++
  "    struct Balance has key \x7b\n" ++
  "        value: u64\n" ++
  "    \x7d\n" ++
  "\n" ++
  "    public fun initialize(\n" ++
  "        account: &signer,\n" ++
  "        name: String,\n" ++
  "        symbol: String,\n" ++
  "        decimals: u8,\n" ++
  "        initial_supply: u64\n" ++
  "    ) \x7b\n" ++
  "        let account_addr = signer::address_of(account);\n" ++
  "        assert!(!exists<TokenInfo>(account_addr), E_ALREADY_INITIALIZED);\n" ++
  "\n" ++
  "        move_to(account, TokenInfo \x7b\n" ++
  "            name,\n" ++
  "            symbol,\n" ++
  "            decimals,\n" ++
  "            total_supply: initial_supply\n" ++
  "        \x7d);\n" ++
  "\n" ++
  "        move_to(account, Balance \x7b\n" ++
  "            value: initial_supply\n" ++
  "        \x7d);\n" ++
  "    \x7d\n" ++
  "\n" ++
  "    public entry fun transfer(\n" ++
  "        from: &signer,\n" ++
  "        to: address,\n" ++
  "        amount: u64\n" ++
  "    ) acquires Balance \x7b\n" ++
  "        let from_addr = signer::address_of(from);\n" ++
  "        let from_balance = borrow_global_mut<Balance>(from_addr);\n" ++
  "        \n" ++
  "        assert!(from_balance.value >= amount, E_INSUFFICIENT_BALANCE);\n" ++
  "        from_balance.value = from_balance.value - amount;\n" ++
  "\n" ++
  "        if (!exists<Balance>(to)) \x7b\n" ++
  "            move_to(from, Balance \x7b value: 0 \x7d);\n" ++
  "        \x7d;\n" ++
  "\n" ++
  "        let to_balance = borrow_global_mut<Balance>(to);\n" ++
  "        to_balance.value = to_balance.value + amount;\n" ++
  "    \x7d\n" ++
  "\n" ++
  "    public fun balance_of(account: address): u64 acquires Balance \x7b\n" ++
  "        assert!(exists<Balance>(account), E_NOT_INITIALIZED);\n" ++
  "        borrow_global<Balance>(account).value\n" ++
  "    \x7d\n" ++
  "\x7d"

/-- Template string returned by `generateNFTContract`
(src/MoveAI.ts lines 190-245). -/
def nftTemplate (address moduleName : String) : String :=
  "module " ++ address ++ "::" ++ moduleName ++ " \x7b\n" ++
  "    use std::signer;\n" ++
  "    use std::string::String;\n" ++
  "    use std::vector;\n" ++
  "\n" ++
  "    const E_NOT_OWNER: u64 = 1;\n" ++
  "    const E_TOKEN_NOT_FOUND: u64 = 2;\n" ++
  "\n" ++
  "    struct NFTCollection has key \x7b\n" ++
  "        tokens: vector<NFT>,\n" ++
  "        next_id: u64\n" ++
  "    \x7d\n" ++
  "\n" ++
  "    struct NFT has store, drop \x7b\n" ++
  "        id: u64,\n" ++
  "        name: String,\n" ++
  "        description: String,\n" ++
  "        uri: String,\n" ++
  "        owner: address\n" ++
  "    \x7d\n" ++
  "\n" ++
  "    public fun initialize_collection(account: &signer) \x7b\n" ++
  "        let account_addr = signer::address_of(account);\n" ++
  "        \n" ++
  "        move_to(account, NFTCollection \x7b\n" ++
  "            tokens: vector::empty<NFT>(),\n" ++
  "            next_id: 0\n" ++
  "        \x7d);\n" ++
  "    \x7d\n" ++
  "\n" ++
  "    public entry fun mint_nft(\n" ++
  "        account: &signer,\n" ++
  "        name: String,\n" ++
  "        description: String,\n" ++
  "        uri: String\n" ++
  "    ) acquires NFTCollection \x7b\n" ++
  "        let account_addr = signer::address_of(account);\n" ++
  "        let collection = borrow_global_mut<NFTCollection>(account_addr);\n" ++
  "        \n" ++
  "        let new_nft = NFT \x7b\n" ++
  "            id: collection.next_id,\n" ++
  "            name,\n" ++
  "            description,\n" ++
  "            uri,\n" ++
  "            owner: account_addr\n" ++
  "        \x7d;\n" ++
  "\n" ++
  "        vector::push_back(&mut collection.tokens, new_nft);\n" ++
  "        collection.next_id = collection.next_id + 1;\n" ++
  "    \x7d\n" ++
  "\n" ++
  "    public fun get_nft_count(account: address): u64 acquires NFTCollection \x7b\n" ++
  "        let collection = borrow_global<NFTCollection>(account);\n" ++
  "        vector::length(&collection.tokens)\n" ++
  "    \x7d\n" ++
  "\x7d"

/-- Template string returned by `generateMarketplace`
(src/MoveAI.ts lines 252-299); the address is also interpolated inside
the `create_listing` body. -/
def marketplaceTemplate (address moduleName : String) : String :=
  "module " ++ address ++ "::" ++ moduleName ++ " \x7b\n" ++
  "    use std::signer;\n" ++
  "    use std::vector;\n" ++
  "\n" ++
  "    const E_LISTING_NOT_FOUND: u64 = 1;\n" ++
  "    const E_INSUFFICIENT_PAYMENT: u64 = 2;\n" ++
  "    const E_NOT_SELLER: u64 = 3;\n" ++
  "\n" ++
  "    struct Listing has store, drop \x7b\n" ++
  "        id: u64,\n" ++
  "        seller: address,\n" ++
  "        price: u64,\n" ++
  "        item_id: u64,\n" ++
  "        active: bool\n" ++
  "    \x7d\n" ++
  "\n" ++
  "    struct MarketplaceData has key \x7b\n" ++
  "        listings: vector<Listing>,\n" ++
  "        next_listing_id: u64\n" ++
  "    \x7d\n" ++
  "\n" ++
  "    public fun initialize(account: &signer) \x7b\n" ++
  "        move_to(account, MarketplaceData \x7b\n" ++
  "            listings: vector::empty<Listing>(),\n" ++
  "            next_listing_id: 0\n" ++
  "        \x7d);\n" ++
  "    \x7d\n" ++
  "\n" ++
  "    public entry fun create_listing(\n" ++
  "        seller: &signer,\n" ++
  "        item_id: u64,\n" ++
  "        price: u64\n" ++
  "    ) acquires MarketplaceData \x7b\n" ++
  "        let seller_addr = signer::address_of(seller);\n" ++
  "        let marketplace = borrow_global_mut<MarketplaceData>(@" ++ address ++ ");\n" ++
  "        \n" ++
  "        let listing = Listing \x7b\n" ++
  "            id: marketplace.next_listing_id,\n" ++
  "            seller: seller_addr,\n" ++
  "            price,\n" ++
  "            item_id,\n" ++
  "            active: true\n" ++
  "        \x7d;\n" ++
  "\n" ++
  "        vector::push_back(&mut marketplace.listings, listing);\n" ++
  "        marketplace.next_listing_id = marketplace.next_listing_id + 1;\n" ++
  "    \x7d\n" ++
  "\x7d"

/-- The fixed instructional fallback returned for an unrecognized intent
(src/MoveAI.ts line 82). -/
def unrecognizedMsg : String :=
  "// Unable to generate code. Try: \x27create a token\x27, \x27create an nft\x27, \x27create a marketplace\x27"

/-- `generateModule` (src/MoveAI.ts lines 85-113). -/
def generateModule (params : GenParams) : String :=
  let moduleName := jsOrDefault params.name "MyModule"
  let address := jsOrDefault params.address "0x1"
  moduleTemplate address moduleName

/-- `generateTokenContract` (src/MoveAI.ts lines 115-184). -/
def generateTokenContract (params : GenParams) : String :=
  let moduleName := jsOrDefault params.name "MyToken"
  let address := jsOrDefault params.address "0x1"
  tokenTemplate address moduleName

/-- `generateNFTContract` (src/MoveAI.ts lines 186-246). -/
def generateNFTContract (params : GenParams) : String :=
  let moduleName := jsOrDefault params.name "MyNFT"
  let address := jsOrDefault params.address "0x1"
  nftTemplate address moduleName

/-- `generateMarketplace` (src/MoveAI.ts lines 248-300). -/
def generateMarketplace (params : GenParams) : String :=
  let moduleName := jsOrDefault params.name "Marketplace"
  let address := jsOrDefault params.address "0x1"
  marketplaceTemplate address moduleName

/-- `generateCode` (src/MoveAI.ts lines 69-83): ordered first-match
keyword chain over the lower-cased intent. -/
def generateCode (intent : String) (params : GenParams) : String :=
  let intentLower := jsToLower intent
  if sIncludes intentLower "token" || sIncludes intentLower "coin" then
    generateTokenContract params
  else if sIncludes intentLower "nft" then
    generateNFTContract params
  else if sIncludes intentLower "marketplace" then
    generateMarketplace params
  else if sIncludes intentLower "module" then
    generateModule params
  else
    unrecognizedMsg

/-- Glossary entry for "abilities" (src/MoveAI.ts lines 306-312). -/
def abilitiesExpl : String :=
  "Move Abilities:\n- key: Can be stored in global storage\n- store: Can be stored inside other structs\n- copy: Can be copied\n- drop: Can be dropped/destroyed\n\nExample: struct MyResource has key, store \x7b ... \x7d"

/-- Glossary entry for "resources" (src/MoveAI.ts lines 314-318). -/
def resourcesExpl : String :=
  "Move Resources:\n- Structs with the \x27key\x27 ability\n- Can be stored in global storage\n- Cannot be copied or dropped (linear types)\n- Accessed with move_to(), borrow_global(), exists()"

/-- Glossary entry for "acquires" (src/MoveAI.ts lines 320-326). -/
def acquiresExpl : String :=
  "Acquires Keyword:\nFunctions that access global storage must declare which resources they acquire.\n\nExample:\npublic fun transfer() acquires Balance \x7b\n    let balance = borrow_global_mut<Balance>(addr);\n\x7d"

/-- Glossary entry for "signer" (src/MoveAI.ts lines 328-332). -/
def signerExpl : String :=
  "Signer Type:\n- Represents transaction sender authority\n- Cannot be copied or stored\n- Used to prove ownership/authorization\n- Common pattern: signer::address_of(&signer)"

/-- The glossary, in the insertion order JS `Object.entries` iterates it. -/
def explanations : List (String × String) :=
  [("abilities", abilitiesExpl), ("resources", resourcesExpl),
   ("acquires", acquiresExpl), ("signer", signerExpl)]

/-- The fixed not-found string of `explainConcept` (src/MoveAI.ts line 341). -/
def conceptNotFoundMsg : String :=
  "Concept not found. Available: abilities, resources, acquires, signer"

/-- `explainConcept` (src/MoveAI.ts lines 302-342): first glossary key that
occurs in the lower-cased concept wins. -/
def explainConcept (concept : String) : String :=
  let conceptLower := jsToLower concept
  match explanations.find? (fun kv => sIncludes conceptLower kv.1) with
  | some kv => kv.2
  | none => conceptNotFoundMsg

/-- Reviewer rule 1 message (src/MoveAI.ts line 348). -/
def acquiresWarning : String :=
  "⚠️  Functions using borrow_global must declare \x27acquires\x27"

/-- Reviewer rule 2 message (src/MoveAI.ts line 353). -/
def keyAbilityWarning : String :=
  "⚠️  Resources moved to storage need \x27key\x27 ability"

/-- Reviewer rule 3 message (src/MoveAI.ts line 358). -/
def errConstSuggestion : String :=
  "💡 Consider defining error constants"

/-- Reviewer confirmation message (src/MoveAI.ts line 362). -/
def noIssuesMsg : String :=
  "✅ No obvious issues found!"

/-- `reviewCode` (src/MoveAI.ts lines 344-366): three independent
substring rules in declaration order, confirmation when none triggers. -/
def reviewCode (code : String) : List String :=
  let issues : List String := []
  let issues :=
    if sIncludes code "borrow_global" && !sIncludes code "acquires" then
      issues ++ [acquiresWarning]
    else issues
  let issues :=
    if sIncludes code "move_to" && sIncludes code "struct" then
      if !sIncludes code "has key" then issues ++ [keyAbilityWarning] else issues
    else issues
  let issues :=
    if !sIncludes code "const E_" then issues ++ [errConstSuggestion] else issues
  if issues.isEmpty then [noIssuesMsg] else issues

/-- C2: generateCode resolves an intent containing both token and nft
keywords to the Token generator, verifying the first-match rule order;
at a concrete such intent the output moreover differs from the NFT
generator's output. -/
theorem claim_C2_token_precedes_nft :
    (∀ (intent : String) (params : GenParams),
      sIncludes (jsToLower intent) "token" = true →
      sIncludes (jsToLower intent) "nft" = true →
      generateCode intent params = generateTokenContract params) ∧
    generateCode "create a token nft" {} ≠ generateNFTContract {} := by
  constructor
  · intro intent params htok _
    unfold generateCode
    simp [htok]
  · decide

/-- C2 witness: the precedence theorem applied at the concrete intent
"create a token nft". -/
theorem claim_C2_token_precedes_nft_witness :
    generateCode "create a token nft" {} = generateTokenContract {} :=
  claim_C2_token_precedes_nft.1 "create a token nft" {} (by decide) (by decide)

/-- C3: when the lower-cased intent contains none of the five keywords,
generateCode returns exactly the fixed instructional fallback string
(total, so in particular it never throws). -/
theorem claim_C3_unrecognized_fallback (intent : String) (params : GenParams)
    (h1 : sIncludes (jsToLower intent) "token" = false)
    (h2 : sIncludes (jsToLower intent) "coin" = false)
    (h3 : sIncludes (jsToLower intent) "nft" = false)
    (h4 : sIncludes (jsToLower intent) "marketplace" = false)
    (h5 : sIncludes (jsToLower intent) "module" = false) :
    generateCode intent params = unrecognizedMsg := by
  unfold generateCode
  simp [h1, h2, h3, h4, h5]

/-- C3 witness: the fallback theorem applied at the concrete intent
"hello world". -/
theorem claim_C3_unrecognized_fallback_witness :
    generateCode "hello world" {} = unrecognizedMsg :=
  claim_C3_unrecognized_fallback "hello world" {} (by decide) (by decide)
    (by decide) (by decide) (by decide)

/-- JS regex word character class (backslash-w): ASCII letters, digits,
underscore. -/
def isWordChar (c : Char) : Bool :=
  ('a' ≤ c && c ≤ 'z') || ('A' ≤ c && c ≤ 'Z') || ('0' ≤ c && c ≤ '9') || c = '_'

/-- JS regex whitespace character class (backslash-s). -/
def isJsSpace (c : Char) : Bool :=
  c = ' ' || c = '\t' || c = '\n' || c = '\r' || c = '\x0b' || c = '\x0c' ||
  c = ' ' || c = ' ' || (' ' ≤ c && c ≤ ' ') ||
  c = ' ' || c = ' ' || c = ' ' || c = ' ' ||
  c = '　' || c = '﻿'

/-- Consume an exact literal at the head of a list, returning the rest. -/
def dropLit : List Char → List Char → Option (List Char)
  | [], l => some l
  | _ :: _, [] => none
  | c :: cs, d :: ds => if c = d then dropLit cs ds else none

/-- Attempt of the regex `module [spaces] word::word` (capture group is the
qualified name) at the head of the list; on success returns the capture and
the remainder after the whole match.  Greedy character-class runs are
maximal; since the classes are disjoint from the delimiters that follow
them, no backtracking alternative exists. -/
def matchModuleAt (l : List Char) : Option (String × List Char) :=
  match dropLit "module".toList l with
  | none => none
  | some l1 =>
    let sp := l1.span isJsSpace
    if sp.1.isEmpty then none else
    let w1 := sp.2.span isWordChar
    if w1.1.isEmpty then none else
    match w1.2 with
    | ':' :: ':' :: l4 =>
      let w2 := l4.span isWordChar
      if w2.1.isEmpty then none else
      some (String.mk (w1.1 ++ ':' :: ':' :: w2.1), w2.2)
    | _ => none

/-- Attempt of the regex `struct [spaces] word` (capture group is the
identifier) at the head of the list. -/
def matchStructAt (l : List Char) : Option (String × List Char) :=
  match dropLit "struct".toList l with
  | none => none
  | some l1 =>
    let sp := l1.span isJsSpace
    if sp.1.isEmpty then none else
    let w1 := sp.2.span isWordChar
    if w1.1.isEmpty then none else
    some (String.mk w1.1, w1.2)

/-- Attempt of `fun [spaces] word` at the head of the list. -/
def matchFunCore (l : List Char) : Option (String × List Char) :=
  match dropLit "fun".toList l with
  | none => none
  | some l1 =>
    let sp := l1.span isJsSpace
    if sp.1.isEmpty then none else
    let w1 := sp.2.span isWordChar
    if w1.1.isEmpty then none else
    some (String.mk w1.1, w1.2)

/-- Attempt of the optional-group regex `(public [spaces])? fun [spaces] word`
at the head of the list: the greedy optional group is tried first, and on
its failure the engine retries without it at the same start position. -/
def matchFunAt (l : List Char) : Option (String × List Char) :=
  match dropLit "public".toList l with
  | some l1 =>
    let sp := l1.span isJsSpace
    if sp.1.isEmpty then matchFunCore l else
    match matchFunCore sp.2 with
    | some r => some r
    | none => matchFunCore l
  | none => matchFunCore l

/-- Model of the JS `regex.exec` loop with the global flag: repeatedly find
the leftmost match at or after the current position, collecting captures;
a failed attempt advances one character.  Every successful match here
consumes at least one character, so fuel equal to the list length never
runs out before the list does. -/
def scanAux (step : List Char → Option (String × List Char)) :
    Nat → List Char → List String
  | _, [] => []
  | 0, _ => []
  | fuel + 1, c :: rest =>
    match step (c :: rest) with
    | some (name, after) => name :: scanAux step fuel after
    | none => scanAux step fuel rest

/-- All captures of the module-declaration regex over a source string
(src/MoveAI.ts lines 46-52). -/
def scanModules (code : String) : List String :=
  scanAux matchModuleAt code.toList.length code.toList

/-- All captures of the struct-declaration regex over a source string
(src/MoveAI.ts lines 54-59). -/
def scanStructs (code : String) : List String :=
  scanAux matchStructAt code.toList.length code.toList

/-- All captures of the function-declaration regex over a source string
(src/MoveAI.ts lines 61-66). -/
def scanFuns (code : String) : List String :=
  scanAux matchFunAt code.toList.length code.toList

/-- The running context of observed symbols. -/
structure MoveContext where
  modules : List String
  structs : List String
  functions : List String
deriving DecidableEq

/-- The context a fresh MoveAI instance starts with. -/
def emptyContext : MoveContext := ⟨[], [], []⟩

/-- Model of `if (!xs.includes(x)) xs.push(x)`. -/
def pushIfAbsent (xs : List String) (x : String) : List String :=
  if x ∈ xs then xs else xs ++ [x]

/-- Insert each scanned name in order, skipping ones already present. -/
def addAll (xs : List String) (names : List String) : List String :=
  names.foldl pushIfAbsent xs

/-- The context transformation performed by `analyzeCode`
(src/MoveAI.ts lines 45-67): three scans, each folded into its list with
the de-duplicating push. -/
def analyzeCtx (ctx : MoveContext) (code : String) : MoveContext :=
  { modules := addAll ctx.modules (scanModules code),
    structs := addAll ctx.structs (scanStructs code),
    functions := addAll ctx.functions (scanFuns code) }

/-- A TS object reference to a MoveContext heap cell. -/
structure CtxRef where
  addr : Nat
deriving DecidableEq

/-- The heap of MoveContext objects, modelling TS reference semantics:
`this.context` is a reference into this heap. -/
structure CtxHeap where
  cells : List MoveContext
deriving DecidableEq

/-- Dereference (out-of-range reads return the empty context; all reads
in the theorems below are in range). -/
def CtxHeap.read (h : CtxHeap) (r : CtxRef) : MoveContext :=
  h.cells.getD r.addr emptyContext

/-- In-place update of the referenced cell. -/
def CtxHeap.write (h : CtxHeap) (r : CtxRef) (v : MoveContext) : CtxHeap :=
  ⟨h.cells.set r.addr v⟩

/-- Allocate a fresh cell. -/
def CtxHeap.alloc (h : CtxHeap) (v : MoveContext) : CtxRef × CtxHeap :=
  (⟨h.cells.length⟩, ⟨h.cells ++ [v]⟩)

/-- A MoveAI instance: its private `context` field is an object reference. -/
structure MoveAIObj where
  contextRef : CtxRef

/-- The constructor (src/MoveAI.ts lines 18-43): allocates
`this.context = [modules empty, structs empty, functions empty]`. -/
def newMoveAI (h : CtxHeap) : MoveAIObj × CtxHeap :=
  let p := h.alloc emptyContext
  (⟨p.1⟩, p.2)

/-- `analyzeCode` on an instance: mutates the referenced context cell in
place (src/MoveAI.ts lines 45-67). -/
def MoveAIObj.analyzeCode (this : MoveAIObj) (code : String) (h : CtxHeap) :
    CtxHeap :=
  h.write this.contextRef (analyzeCtx (h.read this.contextRef) code)

/-- `getContext` (src/MoveAI.ts lines 368-370): `return this.context;`
returns the reference to the live context object, not a copy. -/
def MoveAIObj.getContext (this : MoveAIObj) : CtxRef :=
  this.contextRef

/-- The facade operations; only `analyze` touches the context
(generation, review and explanation never read or write it). -/
inductive MoveOp where
  | analyze (code : String)
  | generate (intent : String) (params : GenParams)
  | review (code : String)
  | explainOp (concept : String)
  | readContext

/-- Effect of one facade operation on the context value. -/
def applyOp (c : MoveContext) : MoveOp → MoveContext
  | .analyze code => analyzeCtx c code
  | _ => c

/-- The context after running a sequence of operations on a fresh
instance. -/
def runOps (ops : List MoveOp) : MoveContext :=
  ops.foldl applyOp emptyContext

/-- All three context lists are duplicate-free. -/
def NodupCtx (c : MoveContext) : Prop :=
  c.modules.Nodup ∧ c.structs.Nodup ∧ c.functions.Nodup

theorem pushIfAbsent_extends (xs : List String) (x : String) :
    xs <+: pushIfAbsent xs x := by
  unfold pushIfAbsent
  split
  · exact List.prefix_rfl
  · exact List.prefix_append xs [x]

theorem addAll_extends (names : List String) :
    ∀ xs : List String, xs <+: addAll xs names := by
  induction names with
  | nil => intro xs; exact List.prefix_rfl
  | cons n ns ih =>
    intro xs
    exact (pushIfAbsent_extends xs n).trans (ih (pushIfAbsent xs n))

theorem pushIfAbsent_nodup (xs : List String) (x : String) (h : xs.Nodup) :
    (pushIfAbsent xs x).Nodup := by
  unfold pushIfAbsent
  split
  · exact h
  · next hmem =>
    refine List.Nodup.append h (List.nodup_singleton x) ?_
    intro a ha hax
    simp only [List.mem_singleton] at hax
    exact hmem (hax ▸ ha)

theorem addAll_nodup (names : List String) :
    ∀ xs : List String, xs.Nodup → (addAll xs names).Nodup := by
  induction names with
  | nil => intro xs h; exact h
  | cons n ns ih =>
    intro xs h
    exact ih (pushIfAbsent xs n) (pushIfAbsent_nodup xs n h)

theorem applyOp_nodup (c : MoveContext) (op : MoveOp) (h : NodupCtx c) :
    NodupCtx (applyOp c op) := by
  cases op with
  | analyze code =>
    exact ⟨addAll_nodup _ _ h.1, addAll_nodup _ _ h.2.1, addAll_nodup _ _ h.2.2⟩
  | generate intent params => exact h
  | review code => exact h
  | explainOp concept => exact h
  | readContext => exact h

theorem applyOp_extends (c : MoveContext) (op : MoveOp) :
    c.modules <+: (applyOp c op).modules ∧
    c.structs <+: (applyOp c op).structs ∧
    c.functions <+: (applyOp c op).functions := by
  cases op with
  | analyze code =>
    exact ⟨addAll_extends _ _, addAll_extends _ _, addAll_extends _ _⟩
  | generate intent params =>
    exact ⟨List.prefix_rfl, List.prefix_rfl, List.prefix_rfl⟩
  | review code => exact ⟨List.prefix_rfl, List.prefix_rfl, List.prefix_rfl⟩
  | explainOp concept => exact ⟨List.prefix_rfl, List.prefix_rfl, List.prefix_rfl⟩
  | readContext => exact ⟨List.prefix_rfl, List.prefix_rfl, List.prefix_rfl⟩

theorem foldl_applyOp_nodup (ops : List MoveOp) :
    ∀ c : MoveContext, NodupCtx c → NodupCtx (ops.foldl applyOp c) := by
  induction ops with
  | nil => intro c h; exact h
  | cons op rest ih =>
    intro c h
    exact ih (applyOp c op) (applyOp_nodup c op h)

theorem foldl_applyOp_extends (ops : List MoveOp) :
    ∀ c : MoveContext,
      c.modules <+: (ops.foldl applyOp c).modules ∧
      c.structs <+: (ops.foldl applyOp c).structs ∧
      c.functions <+: (ops.foldl applyOp c).functions := by
  induction ops with
  | nil =>
    intro c
    exact ⟨List.prefix_rfl, List.prefix_rfl, List.prefix_rfl⟩
  | cons op rest ih =>
    intro c
    refine ⟨?_, ?_, ?_⟩
    · exact (applyOp_extends c op).1.trans (ih (applyOp c op)).1
    · exact (applyOp_extends c op).2.1.trans (ih (applyOp c op)).2.1
    · exact (applyOp_extends c op).2.2.trans (ih (applyOp c op)).2.2

/-- C5 counterexample: the source text "module 0x1::Foox" contains the
substring "module 0x1::Foo", yet after two analyzeCode calls on it the
modules list holds "0x1::Foox" (the greedy word-character run extends the
capture) and no entry equal to "0x1::Foo". -/
theorem claim_C5_counterexample :
    sIncludes "module 0x1::Foox" "module 0x1::Foo" = true ∧
    (runOps [.analyze "module 0x1::Foox",
             .analyze "module 0x1::Foox"]).modules = ["0x1::Foox"] ∧
    (runOps [.analyze "module 0x1::Foox",
             .analyze "module 0x1::Foox"]).modules.count "0x1::Foo" ≠ 1 := by
  decide

/-- C5 amended: over every operation sequence on a fresh instance the three
context lists stay duplicate-free, every already-recorded state is a prefix
of (so never loses elements to) any later state, and two analyzeCode calls
on the exact source text "module 0x1::Foo" leave modules equal to the
one-element list with that module name. -/
theorem claim_C5_context_invariants :
    (∀ ops : List MoveOp, NodupCtx (runOps ops)) ∧
    (∀ ops more : List MoveOp,
      (runOps ops).modules <+: (runOps (ops ++ more)).modules ∧
      (runOps ops).structs <+: (runOps (ops ++ more)).structs ∧
      (runOps ops).functions <+: (runOps (ops ++ more)).functions) ∧
    (runOps [.analyze "module 0x1::Foo",
             .analyze "module 0x1::Foo"]).modules = ["0x1::Foo"] := by
  refine ⟨?_, ?_, by decide⟩
  · intro ops
    exact foldl_applyOp_nodup ops emptyContext ⟨List.nodup_nil, List.nodup_nil, List.nodup_nil⟩
  · intro ops more
    unfold runOps
    rw [List.foldl_append]
    exact foldl_applyOp_extends more (ops.foldl applyOp emptyContext)

/-- C4: getContext hands back the live context reference, not a snapshot
copy; a later analyzeCode call mutates the object previously returned.
Starting from a fresh instance, the reference returned by getContext reads
as the empty context, and after analyzeCode("module 0x1::Foo") the same
reference reads differently, holding the new module entry. -/
theorem claim_C4_getContext_not_snapshot :
    (((newMoveAI ⟨[]⟩).2.read ((newMoveAI ⟨[]⟩).1.getContext)) = emptyContext) ∧
    (((newMoveAI ⟨[]⟩).1.analyzeCode "module 0x1::Foo" (newMoveAI ⟨[]⟩).2).read
        ((newMoveAI ⟨[]⟩).1.getContext) ≠
      ((newMoveAI ⟨[]⟩).2.read ((newMoveAI ⟨[]⟩).1.getContext))) ∧
    (((newMoveAI ⟨[]⟩).1.analyzeCode "module 0x1::Foo" (newMoveAI ⟨[]⟩).2).read
        ((newMoveAI ⟨[]⟩).1.getContext) = ⟨["0x1::Foo"], [], []⟩) := by
  decide

theorem isPrefixList_trans (a : List Char) :
    ∀ b c : List Char, isPrefixList a b = true → isPrefixList b c = true →
      isPrefixList a c = true := by
  induction a with
  | nil => intro b c _ _; rfl
  | cons x xs ih =>
    intro b c h1 h2
    cases b with
    | nil => simp [isPrefixList] at h1
    | cons y ys =>
      cases c with
      | nil => simp [isPrefixList] at h2
      | cons z zs =>
        simp only [isPrefixList] at h1 h2 ⊢
        by_cases hxy : x = y
        · rw [if_pos hxy] at h1
          by_cases hyz : y = z
          · rw [if_pos hyz] at h2
            rw [if_pos (hxy.trans hyz)]
            exact ih ys zs h1 h2
          · rw [if_neg hyz] at h2; cases h2
        · rw [if_neg hxy] at h1; cases h1

theorem inclList_mono (a b : List Char) (hab : isPrefixList a b = true) :
    ∀ l : List Char, inclList b l = true → inclList a l = true := by
  intro l
  induction l with
  | nil =>
    intro h
    cases b with
    | nil =>
      cases a with
      | nil => rfl
      | cons c cs => simp [isPrefixList] at hab
    | cons d ds => simp [inclList, List.isEmpty] at h
  | cons c rest ih =>
    intro h
    simp only [inclList] at h ⊢
    cases hp : isPrefixList b (c :: rest) with
    | true =>
      rw [isPrefixList_trans a b (c :: rest) hab hp]
      rfl
    | false =>
      rw [hp] at h
      simp only [Bool.false_or] at h
      rw [ih h]
      simp

/-- A string containing `b` contains every prefix `a` of `b`. -/
theorem sIncludes_mono (s a b : String)
    (hab : isPrefixList a.toList b.toList = true)
    (h : sIncludes s b = true) : sIncludes s a = true :=
  inclList_mono a.toList b.toList hab s.toList h

/-- C6 counterexample: a source with a global-storage mutable borrow, no
acquires and no error constant on which the claim's two-finding shape
fails, because the key-ability rule also triggers: reviewCode returns
three findings. -/
theorem claim_C6_counterexample :
    sIncludes "borrow_global_mut move_to struct" "borrow_global_mut" = true ∧
    sIncludes "borrow_global_mut move_to struct" "acquires" = false ∧
    sIncludes "borrow_global_mut move_to struct" "const E_" = false ∧
    reviewCode "borrow_global_mut move_to struct" =
      [acquiresWarning, keyAbilityWarning, errConstSuggestion] ∧
    (reviewCode "borrow_global_mut move_to struct").length ≠ 2 := by
  decide

/-- C6 amended: for every source containing "borrow_global_mut" but neither
"acquires" nor "const E_", and on which the key-ability rule does not also
trigger, reviewCode returns exactly the two findings, acquires warning
first and error-constant suggestion second. -/
theorem claim_C6_two_findings (code : String)
    (h1 : sIncludes code "borrow_global_mut" = true)
    (h2 : sIncludes code "acquires" = false)
    (h3 : sIncludes code "const E_" = false)
    (h4 : ¬(sIncludes code "move_to" = true ∧ sIncludes code "struct" = true ∧
            sIncludes code "has key" = false)) :
    reviewCode code = [acquiresWarning, errConstSuggestion] := by
  have hbg : sIncludes code "borrow_global" = true :=
    sIncludes_mono code "borrow_global" "borrow_global_mut" (by decide) h1
  unfold reviewCode
  rw [hbg, h2, h3]
  cases hm : sIncludes code "move_to" with
  | false => simp
  | true =>
    cases hs : sIncludes code "struct" with
    | false => simp
    | true =>
      cases hk : sIncludes code "has key" with
      | false => exact absurd ⟨hm, hs, hk⟩ h4
      | true => simp

/-- C6 witness: the amended two-finding theorem applied at the concrete
source "borrow_global_mut". -/
theorem claim_C6_two_findings_witness :
    reviewCode "borrow_global_mut" = [acquiresWarning, errConstSuggestion] :=
  claim_C6_two_findings "borrow_global_mut" (by decide) (by decide) (by decide)
    (by decide)

/-- C7: whenever none of the three reviewer rules triggers, reviewCode
returns the single-element confirmation sequence and never the empty
sequence. -/
theorem claim_C7_confirmation (code : String)
    (h1 : ¬(sIncludes code "borrow_global" = true ∧
            sIncludes code "acquires" = false))
    (h2 : ¬(sIncludes code "move_to" = true ∧ sIncludes code "struct" = true ∧
            sIncludes code "has key" = false))
    (h3 : sIncludes code "const E_" = true) :
    reviewCode code = [noIssuesMsg] ∧ reviewCode code ≠ [] := by
  have main : reviewCode code = [noIssuesMsg] := by
    unfold reviewCode
    rw [h3]
    cases hbg : sIncludes code "borrow_global" with
    | false =>
      cases hm : sIncludes code "move_to" with
      | false => simp
      | true =>
        cases hs : sIncludes code "struct" with
        | false => simp
        | true =>
          cases hk : sIncludes code "has key" with
          | false => exact absurd ⟨hm, hs, hk⟩ h2
          | true => simp
    | true =>
      cases hacq : sIncludes code "acquires" with
      | false => exact absurd ⟨hbg, hacq⟩ h1
      | true =>
        cases hm : sIncludes code "move_to" with
        | false => simp
        | true =>
          cases hs : sIncludes code "struct" with
          | false => simp
          | true =>
            cases hk : sIncludes code "has key" with
            | false => exact absurd ⟨hm, hs, hk⟩ h2
            | true => simp
  exact ⟨main, by rw [main]; simp⟩

/-- C7 witness: the confirmation theorem applied at a concrete source
containing a mutable borrow with its acquires declaration, an E_-prefixed
constant and a struct with the key ability. -/
theorem claim_C7_confirmation_witness :
    reviewCode ("const E_X: u64 = 1;\nstruct S has key \x7b value: u64 \x7d\n" ++
      "public fun f(a: address) acquires S \x7b borrow_global_mut<S>(a); \x7d") =
      [noIssuesMsg] :=
  (claim_C7_confirmation ("const E_X: u64 = 1;\nstruct S has key \x7b value: u64 \x7d\n" ++
      "public fun f(a: address) acquires S \x7b borrow_global_mut<S>(a); \x7d")
    (by decide) (by decide) (by decide)).1

/-- C8: explainConcept is an ordered first-match substring lookup over the
glossary keys abilities, resources, acquires, signer on the lower-cased
concept; "Acquires" (mixed case) yields the acquires explanation and
"banana" yields the fixed not-found string. -/
theorem claim_C8_explainConcept :
    (∀ c : String, sIncludes (jsToLower c) "abilities" = true →
      explainConcept c = abilitiesExpl) ∧
    (∀ c : String, sIncludes (jsToLower c) "abilities" = false →
      sIncludes (jsToLower c) "resources" = true →
      explainConcept c = resourcesExpl) ∧
    (∀ c : String, sIncludes (jsToLower c) "abilities" = false →
      sIncludes (jsToLower c) "resources" = false →
      sIncludes (jsToLower c) "acquires" = true →
      explainConcept c = acquiresExpl) ∧
    (∀ c : String, sIncludes (jsToLower c) "abilities" = false →
      sIncludes (jsToLower c) "resources" = false →
      sIncludes (jsToLower c) "acquires" = false →
      sIncludes (jsToLower c) "signer" = true →
      explainConcept c = signerExpl) ∧
    (∀ c : String, sIncludes (jsToLower c) "abilities" = false →
      sIncludes (jsToLower c) "resources" = false →
      sIncludes (jsToLower c) "acquires" = false →
      sIncludes (jsToLower c) "signer" = false →
      explainConcept c = conceptNotFoundMsg) ∧
    explainConcept "Acquires" = acquiresExpl ∧
    explainConcept "banana" = conceptNotFoundMsg := by
  refine ⟨?_, ?_, ?_, ?_, ?_, by decide, by decide⟩
  · intro c h1
    simp [explainConcept, explanations, List.find?, h1]
  · intro c h1 h2
    simp [explainConcept, explanations, List.find?, h1, h2]
  · intro c h1 h2 h3
    simp [explainConcept, explanations, List.find?, h1, h2, h3]
  · intro c h1 h2 h3 h4
    simp [explainConcept, explanations, List.find?, h1, h2, h3, h4]
  · intro c h1 h2 h3 h4
    simp [explainConcept, explanations, List.find?, h1, h2, h3, h4]

/-- C8 witness: the first-match acquires case of the lookup theorem applied
at the concrete mixed-case concept "Acquires". -/
theorem claim_C8_explainConcept_witness :
    explainConcept "Acquires" = acquiresExpl :=
  claim_C8_explainConcept.2.2.1 "Acquires" (by decide) (by decide) (by decide)

/-- C9: a missing or empty name/address parameter makes the token generator
fall back to the defaults MyToken and 0x1; with empty parameters,
generateCode("create a token") emits each default exactly once, in the
module header, which the output starts with. -/
theorem claim_C9_token_defaults :
    (∀ p : GenParams, (p.name = none ∨ p.name = some "") →
      (p.address = none ∨ p.address = some "") →
      generateTokenContract p = tokenTemplate "0x1" "MyToken") ∧
    generateCode "create a token" {} = tokenTemplate "0x1" "MyToken" ∧
    sCount (tokenTemplate "0x1" "MyToken") "MyToken" = 1 ∧
    sCount (tokenTemplate "0x1" "MyToken") "0x1" = 1 ∧
    isPrefixList "module 0x1::MyToken \x7b".toList
      (tokenTemplate "0x1" "MyToken").toList = true := by
  refine ⟨?_, by rfl, by decide, by decide, by decide⟩
  intro p hn ha
  unfold generateTokenContract
  rcases hn with h | h <;> rcases ha with h' | h' <;>
    simp [jsOrDefault, h, h']

/-- C9 witness: the defaulting theorem applied at the concrete parameter
mapping with name present but empty and address absent. -/
theorem claim_C9_token_defaults_witness :
    generateTokenContract ⟨some "", none⟩ = tokenTemplate "0x1" "MyToken" :=
  claim_C9_token_defaults.1 ⟨some "", none⟩ (Or.inr rfl) (Or.inl rfl)

/-- C10: with empty parameters, every recognized intent generates code that
the reviewer passes with the single confirmation message, while the
unrecognized-intent fallback string instead draws the error-constant
suggestion. -/
theorem claim_C10_generated_passes_review :
    (∀ intent : String,
      (sIncludes (jsToLower intent) "token" = true ∨
       sIncludes (jsToLower intent) "coin" = true ∨
       sIncludes (jsToLower intent) "nft" = true ∨
       sIncludes (jsToLower intent) "marketplace" = true ∨
       sIncludes (jsToLower intent) "module" = true) →
      reviewCode (generateCode intent {}) = [noIssuesMsg]) ∧
    reviewCode unrecognizedMsg = [errConstSuggestion] := by
  refine ⟨?_, by decide⟩
  intro intent h
  unfold generateCode
  by_cases hTok : (sIncludes (jsToLower intent) "token" ||
      sIncludes (jsToLower intent) "coin") = true
  · rw [if_pos hTok]; decide
  · rw [if_neg hTok]
    by_cases hNft : sIncludes (jsToLower intent) "nft" = true
    · rw [if_pos hNft]; decide
    · rw [if_neg hNft]
      by_cases hMarket : sIncludes (jsToLower intent) "marketplace" = true
      · rw [if_pos hMarket]; decide
      · rw [if_neg hMarket]
        by_cases hMod : sIncludes (jsToLower intent) "module" = true
        · rw [if_pos hMod]; decide
        · exfalso
          rcases h with h | h | h | h | h
          · exact hTok (by rw [h]; rfl)
          · exact hTok (by rw [h]; simp)
          · exact hNft h
          · exact hMarket h
          · exact hMod h

/-- C10 witness: the review-of-generated-code theorem applied at the
concrete intent "create a token". -/
theorem claim_C10_generated_passes_review_witness :
    reviewCode (generateCode "create a token" {}) = [noIssuesMsg] :=
  claim_C10_generated_passes_review.1 "create a token" (Or.inl (by decide))

/-- Global Balance storage for the generated token module: the map from
account address to the value of the published Balance resource, absent
when no Balance resource exists at that address. -/
abbrev TokenStorage : Type := List (String × Nat)

/-- Value of the Balance resource at an address, if published. -/
def readBal (st : TokenStorage) (a : String) : Option Nat :=
  match st.find? (fun kv => kv.1 == a) with
  | some kv => some kv.2
  | none => none

/-- Publish or overwrite the Balance resource value at an address. -/
def writeBal (st : TokenStorage) (a : String) (v : Nat) : TokenStorage :=
  match readBal st a with
  | some _ => st.map (fun kv => if kv.1 == a then (a, v) else kv)
  | none => st ++ [(a, v)]

/-- Dynamic outcomes by which a call of the generated module can abort. -/
inductive MoveAbortKind where
  | missingResource (addr : String)
  | resourceExists (addr : String)
  | abortCode (code : Nat)
  | arithmeticOverflow
deriving DecidableEq

/-- The u64 range bound; u64 addition in Move aborts past it. -/
def u64Bound : Nat := 2 ^ 64

/-- Statement-by-statement shallow embedding of the Move function
`transfer` emitted by the token template (the `public entry fun transfer`
block of `tokenTemplate`), under Move dynamic semantics:
`borrow_global_mut` aborts when no resource is published at the address,
`assert!` aborts with its error code (E_INSUFFICIENT_BALANCE = 3) when the
condition fails, `move_to(s, r)` publishes `r` under the address of the
signer `s` and aborts when a resource of that type already exists there —
and the emitted statement is `move_to(from, ...)`, so it targets the
sender's own address — and u64 addition aborts on overflow. -/
def tokenTransfer (fromAddr toAddr : String) (amount : Nat)
    (st : TokenStorage) : Except MoveAbortKind TokenStorage :=
  match readBal st fromAddr with
  | none => .error (.missingResource fromAddr)
  | some fromBal =>
    if fromBal < amount then .error (.abortCode 3)
    else
      let st1 := writeBal st fromAddr (fromBal - amount)
      match (if (readBal st1 toAddr).isNone then
               (if (readBal st1 fromAddr).isSome then
                  Except.error (MoveAbortKind.resourceExists fromAddr)
                else Except.ok (writeBal st1 fromAddr 0))
             else Except.ok st1) with
      | .error e => .error e
      | .ok st2 =>
        match readBal st2 toAddr with
        | none => .error (.missingResource toAddr)
        | some toBal =>
          if toBal + amount < u64Bound then
            .ok (writeBal st2 toAddr (toBal + amount))
          else .error .arithmeticOverflow

/-- C1: the generated transfer operation does abort when the sender's
balance is below the requested amount, and it does debit and credit when
the recipient's Balance already exists; but on a first transfer to a
recipient without a Balance resource it aborts instead of creating the
recipient's balance, because the emitted `move_to(from, ...)` statement
publishes under the sender's address, where a Balance already exists.
The last conjunct ties the model to the generator: the token template
output contains that exact statement. -/
theorem claim_C1_transfer_first_transfer_aborts :
    tokenTransfer "0xA" "0xB" 20 [("0xA", 10)] =
      .error (.abortCode 3) ∧
    tokenTransfer "0xA" "0xB" 5 [("0xA", 10), ("0xB", 1)] =
      .ok [("0xA", 5), ("0xB", 6)] ∧
    tokenTransfer "0xA" "0xB" 5 [("0xA", 10)] =
      .error (.resourceExists "0xA") ∧
    sIncludes (tokenTemplate "0x1" "MyToken")
      ("if (!exists<Balance>(to)) \x7b\n            move_to(from, Balance \x7b value: 0 \x7d);") = true := by
  refine ⟨by rfl, by rfl, by rfl, by decide⟩
